import Mathlib

/-!
Verification of the retrieval pipeline of the graph-rag-indian-unicorns
repository: a shallow embedding of `src/rag/retriever.py`,
`src/rag/context_builder.py`, `src/llm/ollama_client.py` and the
sector-company Cypher query of `src/database/queries.py`, together with
theorems settling the specification's claims about them.

Modelling conventions:
- Python strings are Lean `String`s; the queries handled by this system are
  ASCII, so the Python `str.lower` / `str.isupper` / `str.title` behaviour
  is modelled at ASCII precision (`pyLower`, `pyFirstIsUpper`, `titleCase`),
  with structurally recursive definitions so that theorems can be
  instantiated on concrete strings by evaluation.
- Python `set` literals iterate in an unspecified (per-process) order; they
  are modelled as lists in source order.  Only membership and emptiness of
  the derived lists are relied on by any theorem.
- Scalar column values fetched from Neo4j are only ever interpolated into
  f-strings by the context builder, so they are modelled as the string that
  Python's `str()` would render (a Cypher `null` renders as `"None"`).
  The Neo4j driver returns every `RETURN` alias as a present key, so the
  `dict.get(key, default)` defaults in the formatting code are dead and the
  corresponding fields are plain `String`s; `Option` is used exactly where
  the code tests the value's truthiness (`subsector`, a `None` detail row,
  an empty stats dict).
-/

/-- Python whitespace for `str.split()` (space, tab, newline, CR, VT, FF). -/
def pyIsSpace (c : Char) : Bool :=
  c = ' ' || c = '\t' || c = '\n' || c = '\r' || c = '\u000B' || c = '\u000C'

/-- Python `s.lower()` (ASCII): lower-case every character. -/
def pyLower (s : String) : String := ⟨s.data.map Char.toLower⟩

/-- Worker for `pySplitWhitespace`: `cur` is the current token reversed. -/
def pySplitGo (cur : List Char) : List Char → List String
  | [] => if cur.isEmpty then [] else [⟨cur.reverse⟩]
  | c :: rest =>
    if pyIsSpace c then
      (if cur.isEmpty then [] else [⟨cur.reverse⟩]) ++ pySplitGo [] rest
    else pySplitGo (c :: cur) rest

/-- Python `s.split()` with no argument: split on whitespace runs, dropping
empty pieces. -/
def pySplitWhitespace (s : String) : List String :=
  pySplitGo [] s.data

/-- Python `word[0].isupper()` for the non-empty tokens the extractor tests
(a `False` result on the empty string is unreachable there, since only
tokens longer than 2 characters are tested). -/
def pyFirstIsUpper (w : String) : Bool :=
  match w.data with
  | [] => false
  | c :: _ => c.isUpper

/-- The punctuation characters stripped from each token in
`retriever.py:86`: `? , . ' " ! ( )`. -/
def stripPunct : List Char := "?,.\x27\"!()".data

/-- Python `s.strip(chars)`: remove leading and trailing characters that
belong to `chars`. -/
def pyStrip (chars : List Char) (s : String) : String :=
  ⟨((s.data.dropWhile (fun c => chars.contains c)).reverse.dropWhile
      (fun c => chars.contains c)).reverse⟩

/-- Contiguous-sublist test on character lists (helper for `pyIn`). -/
def charsHasSub (needle : List Char) : List Char → Bool
  | [] => needle.isEmpty
  | c :: rest => List.isPrefixOf needle (c :: rest) || charsHasSub needle rest

/-- Python's `needle in hay` substring operator on strings. -/
def pyIn (needle hay : String) : Bool :=
  charsHasSub needle.data hay.data

/-- Worker for `titleCase`: tracks whether the previous character was a
letter. -/
def titleCaseGo : Bool → List Char → List Char
  | _, [] => []
  | prevAlpha, c :: rest =>
    if c.isAlpha then
      (if prevAlpha then c.toLower else c.toUpper) :: titleCaseGo true rest
    else
      c :: titleCaseGo false rest

/-- Python `s.title()` (ASCII): uppercase each letter that follows a
non-letter, lowercase the other letters. -/
def titleCase (s : String) : String := ⟨titleCaseGo false s.data⟩

/-- `GraphRetriever.KNOWN_INVESTORS` (retriever.py:42-46), in source order. -/
def KNOWN_INVESTORS : List String :=
  ["tiger global", "softbank", "sequoia", "accel", "matrix",
   "temasek", "tencent", "alibaba", "lightspeed", "elevation",
   "nexus", "kalaari", "chiratae", "bessemer", "general atlantic"]

/-- `GraphRetriever.KNOWN_SECTORS` (retriever.py:48-52). -/
def KNOWN_SECTORS : List String :=
  ["fintech", "edtech", "e-commerce", "ecommerce", "saas",
   "foodtech", "healthtech", "proptech", "logistics", "gaming",
   "d2c", "b2b", "marketplace", "mobility", "adtech"]

/-- `GraphRetriever.KNOWN_LOCATIONS` (retriever.py:54-58). -/
def KNOWN_LOCATIONS : List String :=
  ["bangalore", "bengaluru", "mumbai", "delhi", "gurgaon",
   "gurugram", "noida", "pune", "chennai", "hyderabad",
   "jaipur", "thane", "goa", "kolkata"]

/-- `GraphRetriever.COMPARISON_KEYWORDS` (retriever.py:60). -/
def COMPARISON_KEYWORDS : List String :=
  ["compare", "vs", "versus", "difference", "between"]

/-- `GraphRetriever.AGGREGATION_KEYWORDS` (retriever.py:61). -/
def AGGREGATION_KEYWORDS : List String :=
  ["total", "sum", "average", "count", "how many"]

/-- `GraphRetriever.TOP_KEYWORDS` (retriever.py:62). -/
def TOP_KEYWORDS : List String :=
  ["top", "best", "highest", "largest", "biggest", "most"]

/-- `GraphRetriever.INVESTOR_KEYWORDS` (retriever.py:64). -/
def INVESTOR_KEYWORDS : List String :=
  ["investor", "invested", "portfolio", "fund", "vc", "capital", "backed"]

/-- `GraphRetriever.SECTOR_KEYWORDS` (retriever.py:65). -/
def SECTOR_KEYWORDS : List String :=
  ["sector", "industry", "segment", "vertical"]

/-- `GraphRetriever.LOCATION_KEYWORDS` (retriever.py:66). -/
def LOCATION_KEYWORDS : List String :=
  ["located", "based", "city", "where"]

/-- The `query_types : Set[EntityType]` field of `ExtractedEntities`,
modelled as one membership Boolean per `EntityType` constructor
(retriever.py:12-19, 29). -/
structure QueryTypes where
  company : Bool
  investor : Bool
  sector : Bool
  location : Bool
  valuation : Bool
  comparison : Bool
deriving DecidableEq, Repr

/-- `ExtractedEntities` (retriever.py:22-32). -/
structure ExtractedEntities where
  companies : List String
  investors : List String
  sectors : List String
  locations : List String
  query_types : QueryTypes
  is_comparison : Bool
  is_aggregation : Bool
  is_top_query : Bool
deriving DecidableEq, Repr

/-- `GraphRetriever.extract_entities` (retriever.py:68-131).  The loops that
append gazetteer matches / company candidates in iteration order while also
adding the type tag are rendered as `filter`/`map` in the same order; a tag
is set iff some iteration set it. -/
def extractEntities (query : String) : ExtractedEntities :=
  let query_lower := pyLower query
  -- retriever.py:82-84: query-shape flags from substring keyword hits
  let is_comparison := COMPARISON_KEYWORDS.any (fun kw => pyIn kw query_lower)
  let is_aggregation := AGGREGATION_KEYWORDS.any (fun kw => pyIn kw query_lower)
  let is_top_query := TOP_KEYWORDS.any (fun kw => pyIn kw query_lower)
  -- retriever.py:86-88: tokenize, strip punctuation, keep tokens longer than 2
  let words := (pySplitWhitespace query).map (pyStrip stripPunct)
  let keywords := words.filter (fun w => w.length > 2)
  -- retriever.py:91-100: context-keyword type tags
  let inv_kw := INVESTOR_KEYWORDS.any (fun kw => pyIn kw query_lower)
  let sec_kw := SECTOR_KEYWORDS.any (fun kw => pyIn kw query_lower)
  let loc_kw := LOCATION_KEYWORDS.any (fun kw => pyIn kw query_lower)
  -- retriever.py:102-118: gazetteer substring matches, title-cased
  let matched_investors := KNOWN_INVESTORS.filter (fun t => pyIn t query_lower)
  let matched_sectors := KNOWN_SECTORS.filter (fun t => pyIn t query_lower)
  let matched_locations := KNOWN_LOCATIONS.filter (fun t => pyIn t query_lower)
  -- retriever.py:120-129: capitalized tokens not in any gazetteer
  let company_cands := keywords.filter (fun w =>
    pyFirstIsUpper w &&
    !(KNOWN_INVESTORS.contains (pyLower w)) &&
    !(KNOWN_SECTORS.contains (pyLower w)) &&
    !(KNOWN_LOCATIONS.contains (pyLower w)) &&
    decide (w.length > 3))
  { companies := company_cands
    investors := matched_investors.map titleCase
    sectors := matched_sectors.map titleCase
    locations := matched_locations.map titleCase
    query_types :=
      { company := !company_cands.isEmpty
        investor := inv_kw || !matched_investors.isEmpty
        sector := sec_kw || !matched_sectors.isEmpty
        location := loc_kw || !matched_locations.isEmpty
        valuation := false
        comparison := false }
    is_comparison := is_comparison
    is_aggregation := is_aggregation
    is_top_query := is_top_query }

/-- The `GraphRetriever` class (retriever.py:35-39).  It has no instance
state: every attribute it reads is a class-level constant. -/
inductive GraphRetriever where
  | mk
deriving DecidableEq, Repr

/-- The `extract_entities` method viewed as a state transformer on the
retriever object: it returns the extracted entities together with the
(unchanged) object state, since the method assigns to no attribute. -/
def GraphRetriever.extract_entities (r : GraphRetriever) (query : String) :
    ExtractedEntities × GraphRetriever :=
  (extractEntities query, r)

/-- `GraphRetriever.get_query_intent` (retriever.py:133-158): the fixed
priority cascade. -/
def getQueryIntent (entities : ExtractedEntities) : String :=
  if entities.is_comparison then "comparison"
  else if entities.is_aggregation then "aggregation"
  else if entities.is_top_query then "top_ranking"
  else if entities.query_types.investor then "investor_info"
  else if entities.query_types.sector then "sector_info"
  else if entities.query_types.location then "location_info"
  else if entities.query_types.company then "company_info"
  else "general"

/-- A row of `get_investor_portfolio` (queries.py:120-143). -/
structure PortfolioRow where
  investor : String
  company : String
  valuation : String
  sector : String
deriving DecidableEq, Repr

/-- A row of `get_co_investors` (queries.py:157-169). -/
structure CoInvestorRow where
  coInvestor : String
  sharedInvestments : String
deriving DecidableEq, Repr

/-- A row of `get_sector_companies` as consumed by the builder
(queries.py:174-186). -/
structure SectorCompanyRow where
  company : String
  valuation : String
  subsector : String
deriving DecidableEq, Repr

/-- A row of `get_city_companies` (queries.py:214-226). -/
structure CityCompanyRow where
  company : String
  valuation : String
  sector : String
deriving DecidableEq, Repr

/-- A row of `get_top_companies` (queries.py:87-99). -/
structure TopCompanyRow where
  company : String
  valuation : String
  sector : String
deriving DecidableEq, Repr

/-- A row of `get_top_investors` (queries.py:145-155). -/
structure TopInvestorRow where
  investor : String
  investments : String
  portfolioValue : String
deriving DecidableEq, Repr

/-- A row of `get_sector_stats` (queries.py:188-200). -/
structure SectorStatRow where
  sector : String
  companyCount : String
  totalValuation : String
deriving DecidableEq, Repr

/-- A row of `get_location_stats` (queries.py:228-239). -/
structure LocationStatRow where
  city : String
  companyCount : String
  totalValuation : String
deriving DecidableEq, Repr

/-- The record of `get_graph_stats` (queries.py:245-257). -/
structure GraphStats where
  companies : String
  investors : String
  sectors : String
  locations : String
  relationships : String
deriving DecidableEq, Repr

/-- The single record of `get_company_details` (queries.py:56-85).
`subsector` is `Option` because the formatter tests its truthiness; the
other scalar columns are only interpolated. -/
structure CompanyDetails where
  company : String
  valuation : String
  entryValuation : String
  entryDate : String
  rank : String
  sector : String
  subsector : Option String
  locations : List String
  investors : List String
deriving DecidableEq, Repr

/-- The `GraphQueries` repository as consumed by `ContextBuilder`
(context_builder.py:30-32): one function per lookup the builder issues,
with the result-limit argument where the method takes one.  The stats
lookups take no argument.  `get_company_details` returns `none` for "no
matching row"; `get_graph_stats` returns `none` for the empty dict. -/
structure GraphQueries where
  get_company_details : String → Option CompanyDetails
  get_investor_portfolio : String → Nat → List PortfolioRow
  get_co_investors : String → Nat → List CoInvestorRow
  get_sector_companies : String → Nat → List SectorCompanyRow
  get_city_companies : String → Nat → List CityCompanyRow
  get_top_companies : Nat → List TopCompanyRow
  get_top_investors : Nat → List TopInvestorRow
  get_sector_stats : List SectorStatRow
  get_location_stats : List LocationStatRow
  get_graph_stats : Option GraphStats

/-- `RetrievalResult` (context_builder.py:15-21).  The wall-clock
`retrieval_time_ms` field is real time and is not modelled. -/
structure RetrievalResult where
  context : String
  entities_found : Nat
  sources : List String
deriving DecidableEq, Repr

/-- `ContextBuilder._format_company_details` (context_builder.py:291-305). -/
def formatCompanyDetails (d : CompanyDetails) : String :=
  let investor_str0 :=
    if d.investors.isEmpty then "N/A"
    else String.intercalate ", " (d.investors.take 7)
  let investor_str :=
    if d.investors.length > 7 then
      investor_str0 ++ " (+" ++ toString (d.investors.length - 7) ++ " more)"
    else investor_str0
  -- `f"({details.get('subsector')})" if details.get('subsector') else ''`
  let sub := match d.subsector with
    | some ss => if ss = "" then "" else "(" ++ ss ++ ")"
    | none => ""
  let locs0 := String.intercalate ", " d.locations
  let locs := if locs0 = "" then "N/A" else locs0
  "**Company: " ++ d.company ++ "**\n" ++
  "- Sector: " ++ d.sector ++ " " ++ sub ++ "\n" ++
  "- Current Valuation: $" ++ d.valuation ++ "B\n" ++
  "- Entry Valuation: $" ++ d.entryValuation ++ "B\n" ++
  "- Entry Date: " ++ d.entryDate ++ "\n" ++
  "- Locations: " ++ locs ++ "\n" ++
  "- Key Investors: " ++ investor_str

/-- `ContextBuilder._format_investor_portfolio` (context_builder.py:307-317). -/
def formatInvestorPortfolio (portfolio : List PortfolioRow) : String :=
  match portfolio with
  | [] => ""
  | first :: _ =>
    let companies := portfolio.map (fun p =>
      p.company ++ " ($" ++ p.valuation ++ "B - " ++ p.sector ++ ")")
    "**Investor: " ++ first.investor ++ "**\n" ++
    "- Portfolio (" ++ toString portfolio.length ++ " companies): " ++
    String.intercalate ", " companies

/-- `ContextBuilder._format_co_investors` (context_builder.py:319-324). -/
def formatCoInvestors (investor : String) (co_investors : List CoInvestorRow) : String :=
  String.intercalate "\n"
    (("**Co-investors of " ++ investor ++ ":**") ::
      co_investors.map (fun ci =>
        "- " ++ ci.coInvestor ++ ": " ++ ci.sharedInvestments ++ " shared investments"))

/-- `ContextBuilder._format_sector_companies` (context_builder.py:326-330). -/
def formatSectorCompanies (sector : String) (companies : List SectorCompanyRow) : String :=
  "**" ++ sector ++ " Sector Companies:**\n" ++
  String.intercalate ", " (companies.map (fun c => c.company ++ " ($" ++ c.valuation ++ "B)"))

/-- `ContextBuilder._format_city_companies` (context_builder.py:332-337). -/
def formatCityCompanies (city : String) (companies : List CityCompanyRow) : String :=
  "**Companies in " ++ city ++ ":**\n" ++
  String.intercalate ", " (companies.map (fun c =>
    c.company ++ " (" ++ c.sector ++ ", $" ++ c.valuation ++ "B)"))

/-- `ContextBuilder._format_top_companies` (context_builder.py:339-344). -/
def formatTopCompanies (companies : List TopCompanyRow) : String :=
  String.intercalate "\n"
    ("**Top Unicorns by Valuation:**" ::
      (List.enumFrom 1 companies).map (fun p =>
        toString p.1 ++ ". " ++ p.2.company ++ " - $" ++ p.2.valuation ++ "B (" ++ p.2.sector ++ ")"))

/-- `ContextBuilder._format_top_investors` (context_builder.py:346-351). -/
def formatTopInvestors (investors : List TopInvestorRow) : String :=
  String.intercalate "\n"
    ("**Most Active Investors:**" ::
      (List.enumFrom 1 investors).map (fun p =>
        toString p.1 ++ ". " ++ p.2.investor ++ " - " ++ p.2.investments ++
        " investments ($" ++ p.2.portfolioValue ++ "B total)"))

/-- `ContextBuilder._format_sector_stats` (context_builder.py:353-358). -/
def formatSectorStats (stats : List SectorStatRow) : String :=
  String.intercalate "\n"
    ("**Sector Statistics:**" ::
      (stats.take 8).map (fun s =>
        "- " ++ s.sector ++ ": " ++ s.companyCount ++ " companies, $" ++ s.totalValuation ++ "B total"))

/-- `ContextBuilder._format_location_stats` (context_builder.py:360-365). -/
def formatLocationStats (stats : List LocationStatRow) : String :=
  String.intercalate "\n"
    ("**Location Statistics:**" ::
      (stats.take 8).map (fun s =>
        "- " ++ s.city ++ ": " ++ s.companyCount ++ " companies, $" ++ s.totalValuation ++ "B total"))

/-- `ContextBuilder._format_graph_stats` (context_builder.py:367-374). -/
def formatGraphStats (g : GraphStats) : String :=
  "**Indian Unicorn Startups Database:**\n" ++
  "- Total Companies: " ++ g.companies ++ "\n" ++
  "- Total Investors: " ++ g.investors ++ "\n" ++
  "- Sectors: " ++ g.sectors ++ "\n" ++
  "- Locations: " ++ g.locations ++ "\n" ++
  "- Total Relationships: " ++ g.relationships

/-- A `for name in names: rows = f(name); if rows: ...` loop skeleton: the
names paired with their fetched rows, keeping only non-empty results, in
loop order. -/
def lookupPairs {ρ : Type} (f : String → List ρ) (names : List String) :
    List (String × List ρ) :=
  (names.map (fun n => (n, f n))).filter (fun p => !p.2.isEmpty)

/-- The investor loop of the builder: investors paired with their non-empty
portfolios fetched at the given limit. -/
def investorPortfolioPairs (st : GraphQueries) (investors : List String)
    (limit : Nat) : List (String × List PortfolioRow) :=
  lookupPairs (fun inv => st.get_investor_portfolio inv limit) investors

/-- The sector loop of the builder: sectors paired with their non-empty
company lists fetched at the given limit. -/
def sectorCompanyPairs (st : GraphQueries) (sectors : List String)
    (limit : Nat) : List (String × List SectorCompanyRow) :=
  lookupPairs (fun s => st.get_sector_companies s limit) sectors

/-- The location loop of the builder: cities paired with their non-empty
company lists fetched at the given limit. -/
def cityCompanyPairs (st : GraphQueries) (locations : List String)
    (limit : Nat) : List (String × List CityCompanyRow) :=
  lookupPairs (fun c => st.get_city_companies c limit) locations

/-- `ContextBuilder._build_company_context` (context_builder.py:85-106):
details for the first 3 company candidates (count 1 each), then portfolios
(limit 5) for every mentioned investor (count += portfolio size). -/
def buildCompanyContext (st : GraphQueries) (e : ExtractedEntities) :
    List String × List String × Nat :=
  let ds := (e.companies.take 3).filterMap st.get_company_details
  let ps := investorPortfolioPairs st e.investors 5
  (ds.map formatCompanyDetails ++ ps.map (fun p => formatInvestorPortfolio p.2),
   ds.map (fun d => "company:" ++ d.company) ++ ps.map (fun p => "investor:" ++ p.1),
   ds.length + (ps.map (fun p => p.2.length)).sum)

/-- `ContextBuilder._build_investor_context` (context_builder.py:108-133):
portfolios (limit 10) for the first 3 investors, each followed by its
co-investors block (limit 5, fetched only when the portfolio is non-empty,
never counted); if no investor was mentioned, the top-10 investors. -/
def buildInvestorContext (st : GraphQueries) (e : ExtractedEntities) :
    List String × List String × Nat :=
  let ps := investorPortfolioPairs st (e.investors.take 3) 10
  let parts := (ps.map (fun p =>
    formatInvestorPortfolio p.2 ::
      (let co := st.get_co_investors p.1 5
       if co.isEmpty then [] else [formatCoInvestors p.1 co]))).flatten
  let srcs := ps.map (fun p => "investor:" ++ p.1)
  let count := (ps.map (fun p => p.2.length)).sum
  if e.investors.isEmpty then
    let ti := st.get_top_investors 10
    if ti.isEmpty then (parts, srcs, count)
    else (parts ++ [formatTopInvestors ti], srcs ++ ["top_investors"], count + ti.length)
  else (parts, srcs, count)

/-- `ContextBuilder._build_sector_context` (context_builder.py:135-153):
company lists (limit 10) for the first 3 sectors (counted), then the sector
statistics block (never counted). -/
def buildSectorContext (st : GraphQueries) (e : ExtractedEntities) :
    List String × List String × Nat :=
  let ps := sectorCompanyPairs st (e.sectors.take 3) 10
  let parts := ps.map (fun p => formatSectorCompanies p.1 p.2)
  let srcs := ps.map (fun p => "sector:" ++ p.1)
  let count := (ps.map (fun p => p.2.length)).sum
  let ss := st.get_sector_stats
  if ss.isEmpty then (parts, srcs, count)
  else (parts ++ [formatSectorStats ss], srcs ++ ["sector_stats"], count)

/-- `ContextBuilder._build_location_context` (context_builder.py:155-173):
company lists (limit 10) for the first 3 locations (counted), then the
location statistics block over the first 10 rows (never counted). -/
def buildLocationContext (st : GraphQueries) (e : ExtractedEntities) :
    List String × List String × Nat :=
  let ps := cityCompanyPairs st (e.locations.take 3) 10
  let parts := ps.map (fun p => formatCityCompanies p.1 p.2)
  let srcs := ps.map (fun p => "city:" ++ p.1)
  let count := (ps.map (fun p => p.2.length)).sum
  let ls := st.get_location_stats
  if ls.isEmpty then (parts, srcs, count)
  else (parts ++ [formatLocationStats (ls.take 10)], srcs ++ ["location_stats"], count)

/-- `ContextBuilder._build_comparison_context` (context_builder.py:175-204):
details for the first 5 company candidates, sector lists (limit 5) for the
first 3 sectors, city lists (limit 5) for the first 3 locations. -/
def buildComparisonContext (st : GraphQueries) (e : ExtractedEntities) :
    List String × List String × Nat :=
  let ds := (e.companies.take 5).filterMap st.get_company_details
  let sp := sectorCompanyPairs st (e.sectors.take 3) 5
  let cp := cityCompanyPairs st (e.locations.take 3) 5
  (ds.map formatCompanyDetails ++ sp.map (fun p => formatSectorCompanies p.1 p.2)
     ++ cp.map (fun p => formatCityCompanies p.1 p.2),
   ds.map (fun d => "company:" ++ d.company) ++ sp.map (fun p => "sector:" ++ p.1)
     ++ cp.map (fun p => "city:" ++ p.1),
   ds.length + (sp.map (fun p => p.2.length)).sum + (cp.map (fun p => p.2.length)).sum)

/-- `ContextBuilder._build_top_ranking_context` (context_builder.py:206-231):
top-10 companies and top-10 investors (both counted), then sector lists
(limit 5) for the first 2 sectors (blocks and sources appended, but not
counted — the loop body has no `count +=`). -/
def buildTopRankingContext (st : GraphQueries) (e : ExtractedEntities) :
    List String × List String × Nat :=
  let tc := st.get_top_companies 10
  let b1 : List String × List String × Nat :=
    if tc.isEmpty then ([], [], 0)
    else ([formatTopCompanies tc], ["top_companies"], tc.length)
  let ti := st.get_top_investors 10
  let b2 :=
    if ti.isEmpty then b1
    else (b1.1 ++ [formatTopInvestors ti], b1.2.1 ++ ["top_investors"], b1.2.2 + ti.length)
  let ps := sectorCompanyPairs st (e.sectors.take 2) 5
  (b2.1 ++ ps.map (fun p => formatSectorCompanies p.1 p.2),
   b2.2.1 ++ ps.map (fun p => "sector:" ++ p.1),
   b2.2.2)

/-- `ContextBuilder._build_aggregation_context` (context_builder.py:233-259):
graph statistics (count += 1), sector statistics (count += row count),
location statistics over the first 10 rows (not counted). -/
def buildAggregationContext (st : GraphQueries) (_e : ExtractedEntities) :
    List String × List String × Nat :=
  let b1 : List String × List String × Nat :=
    match st.get_graph_stats with
    | some stats => ([formatGraphStats stats], ["graph_stats"], 1)
    | none => ([], [], 0)
  let ss := st.get_sector_stats
  let b2 :=
    if ss.isEmpty then b1
    else (b1.1 ++ [formatSectorStats ss], b1.2.1 ++ ["sector_stats"], b1.2.2 + ss.length)
  let ls := st.get_location_stats
  if ls.isEmpty then b2
  else (b2.1 ++ [formatLocationStats (ls.take 10)], b2.2.1 ++ ["location_stats"], b2.2.2)

/-- `ContextBuilder._build_general_context` (context_builder.py:261-278):
graph statistics plus the top-5 companies; the returned count is
`len(top_companies) if top_companies else 0`. -/
def buildGeneralContext (st : GraphQueries) : List String × List String × Nat :=
  let b1 : List String × List String :=
    match st.get_graph_stats with
    | some stats => ([formatGraphStats stats], ["graph_stats"])
    | none => ([], [])
  let tc := st.get_top_companies 5
  let b2 :=
    if tc.isEmpty then b1
    else (b1.1 ++ [formatTopCompanies tc], b1.2 ++ ["top_companies"])
  (b2.1, b2.2, if tc.isEmpty then 0 else tc.length)

/-- The intent dispatch inside `build_context` (context_builder.py:53-70). -/
def intentPlan (st : GraphQueries) (e : ExtractedEntities) (intent : String) :
    List String × List String × Nat :=
  if intent = "comparison" then buildComparisonContext st e
  else if intent = "top_ranking" then buildTopRankingContext st e
  else if intent = "aggregation" then buildAggregationContext st e
  else if intent = "investor_info" then buildInvestorContext st e
  else if intent = "sector_info" then buildSectorContext st e
  else if intent = "location_info" then buildLocationContext st e
  else if intent = "company_info" then buildCompanyContext st e
  else buildGeneralContext st

/-- `ContextBuilder.build_context` (context_builder.py:35-83): extract,
classify, run the intent plan, fall back to the general plan when the plan
produced no blocks, join the blocks with a blank line. -/
def buildContext (st : GraphQueries) (user_query : String) : RetrievalResult :=
  let entities := extractEntities user_query
  let intent := getQueryIntent entities
  let planned := intentPlan st entities intent
  -- context_builder.py:72-74: fallback to general context if nothing found
  let chosen := if planned.1.isEmpty then buildGeneralContext st else planned
  { context := String.intercalate "\n\n" chosen.1
    entities_found := chosen.2.2
    sources := chosen.2.1 }

/-- A store in which every lookup misses: used to instantiate theorems with
hypotheses on concrete inputs. -/
def emptyStore : GraphQueries where
  get_company_details := fun _ => none
  get_investor_portfolio := fun _ _ => []
  get_co_investors := fun _ _ => []
  get_sector_companies := fun _ _ => []
  get_city_companies := fun _ _ => []
  get_top_companies := fun _ => []
  get_top_investors := fun _ => []
  get_sector_stats := []
  get_location_stats := []
  get_graph_stats := none

/-- `LLMResponse` (ollama_client.py:14-22).  `total_duration_ms` holds the
nanosecond count divided by 1,000,000 (the Python float division is
modelled as exact division on the integral nanosecond value). -/
structure LLMResponse where
  content : String
  model : String
  total_duration_ms : Nat
  eval_count : Nat
  success : Bool
  error : Option String
deriving DecidableEq, Repr

/-- A successfully parsed Ollama `/api/generate` response body: each field
the client reads via `data.get(...)`, absent when the JSON lacks the key. -/
structure OllamaJson where
  response : Option String
  model : Option String
  total_duration : Option Nat
  eval_count : Option Nat
deriving DecidableEq, Repr

/-- The observable outcome of the `requests.post` call inside
`OllamaClient.generate`: a response with a status code, a body (`none` when
`response.json()` raises because the body is not valid JSON) and the raw
text, or one of the two request exceptions the client catches
specifically. -/
inductive HttpOutcome where
  | httpResponse (status_code : Nat) (body : Option OllamaJson) (text : String)
  | connectionError
  | timeout
deriving DecidableEq, Repr

/-- The `str()` of the `json.JSONDecodeError` raised on an unparseable body
and caught by the blanket `except Exception` branch; it is always of the
form `"msg: line L column C (char P)"` and hence non-empty. -/
def jsonDecodeErrorMessage : String := "Expecting value: line 1 column 1 (char 0)"

/-- `OllamaClient.generate` (ollama_client.py:79-160), from the point the
request outcome is known: `model` is the configured `self._model`. -/
def OllamaClient.generate (model : String) (outcome : HttpOutcome) : LLMResponse :=
  match outcome with
  | .httpResponse status_code body text =>
    if status_code = 200 then
      match body with
      | some data =>
        { content := data.response.getD ""
          model := data.model.getD model
          total_duration_ms := (data.total_duration.getD 0) / 1000000
          eval_count := data.eval_count.getD 0
          success := true
          error := none }
      | none =>
        -- `response.json()` raised; caught by `except Exception as e`
        { content := ""
          model := model
          total_duration_ms := 0
          eval_count := 0
          success := false
          error := some jsonDecodeErrorMessage }
    else
      { content := ""
        model := model
        total_duration_ms := 0
        eval_count := 0
        success := false
        error := some ("HTTP " ++ toString status_code ++ ": " ++ text) }
  | .connectionError =>
    { content := ""
      model := model
      total_duration_ms := 0
      eval_count := 0
      success := false
      error := some "Cannot connect to Ollama. Make sure it\x27s running: `ollama serve`" }
  | .timeout =>
    { content := ""
      model := model
      total_duration_ms := 0
      eval_count := 0
      success := false
      error := some "Request timed out. The model may be loading or overloaded." }

/-- The failure modes of the generation call: connection refused, timeout,
non-200 status, or a malformed (unparseable) response body. -/
def isFailureOutcome : HttpOutcome → Bool
  | .httpResponse status_code body _ => status_code != 200 || body.isNone
  | .connectionError => true
  | .timeout => true

/-- A `Company` node as read by the sector-companies Cypher query:
`c.name` and the nullable numeric `c.currentValuation`. -/
structure CompanyNode where
  name : String
  currentValuation : Option Rat
deriving DecidableEq, Repr

/-- The slice of the Neo4j graph the sector-companies query touches:
company nodes, `OPERATES_IN` edges (company name, sector name) and
`SPECIALIZES_IN` edges (company name, subsector name). -/
structure Neo4jGraph where
  companies : List CompanyNode
  operates_in : List (String × String)
  specializes_in : List (String × String)

/-- A result record of the sector-companies Cypher query. -/
structure SectorCompanyRecord where
  company : String
  valuation : Option Rat
  subsector : Option String
deriving DecidableEq, Repr

/-- `ORDER BY c.currentValuation DESC` as a Boolean "comes no later than"
relation; Neo4j sorts `null` before every value in descending order. -/
def valuationDescLe (a b : SectorCompanyRecord) : Bool :=
  match a.valuation, b.valuation with
  | none, _ => true
  | some _, none => false
  | some x, some y => y ≤ x

/-- Insert into a list sorted by `le`, keeping earlier-inserted equal
elements first. -/
def insertSorted {α : Type} (le : α → α → Bool) (a : α) : List α → List α
  | [] => [a]
  | b :: t => if le a b then a :: b :: t else b :: insertSorted le a t

/-- Sort a list by the Boolean relation `le` (insertion sort). -/
def sortByRel {α : Type} (le : α → α → Bool) (l : List α) : List α :=
  l.foldr (insertSorted le) []

/-- The `MATCH`/`WHERE`/`OPTIONAL MATCH`/`RETURN` part of the
sector-companies query (queries.py:176-184): one row per `OPERATES_IN`
edge whose sector name contains the search term case-insensitively,
multiplied by the company's `SPECIALIZES_IN` subsectors (or a single row
with a null subsector when it has none). -/
def matchSectorRows (g : Neo4jGraph) (sector_name : String) : List SectorCompanyRecord :=
  (g.operates_in.map (fun edge =>
    if pyIn (pyLower sector_name) (pyLower edge.2) then
      match g.companies.find? (fun c => c.name = edge.1) with
      | some c =>
        let subs := (g.specializes_in.filter (fun e2 => e2.1 = edge.1)).map (fun e2 => e2.2)
        if subs.isEmpty then
          [{ company := c.name, valuation := c.currentValuation, subsector := none }]
        else
          subs.map (fun ss =>
            { company := c.name, valuation := c.currentValuation, subsector := some ss })
      | none => []
    else [])).flatten

/-- `GraphQueries.get_sector_companies` (queries.py:174-186): the matched
rows ordered by descending valuation and truncated by `LIMIT $limit`. -/
def Neo4jGraph.get_sector_companies (g : Neo4jGraph) (sector_name : String)
    (limit : Nat) : List SectorCompanyRecord :=
  (sortByRel valuationDescLe (matchSectorRows g sector_name)).take limit

/-- Projection of `extractEntities`: the `is_comparison` flag is exactly the
substring test of the comparison keywords against the lower-cased query
(retriever.py:82). -/
lemma extractEntities_is_comparison (q : String) :
    (extractEntities q).is_comparison =
      COMPARISON_KEYWORDS.any (fun kw => pyIn kw (pyLower q)) := rfl

/-- Projection of `extractEntities`: the extracted investor names are the
title-cased gazetteer entries matching the lower-cased query
(retriever.py:102-105). -/
lemma extractEntities_investors (q : String) :
    (extractEntities q).investors =
      (KNOWN_INVESTORS.filter (fun t => pyIn t (pyLower q))).map titleCase := rfl

/-- Projection of `extractEntities`: the extracted sector names
(retriever.py:107-110). -/
lemma extractEntities_sectors (q : String) :
    (extractEntities q).sectors =
      (KNOWN_SECTORS.filter (fun t => pyIn t (pyLower q))).map titleCase := rfl

/-- Projection of `extractEntities`: the extracted location names
(retriever.py:112-115). -/
lemma extractEntities_locations (q : String) :
    (extractEntities q).locations =
      (KNOWN_LOCATIONS.filter (fun t => pyIn t (pyLower q))).map titleCase := rfl

/-- Projection of `extractEntities`: the company candidates are the
length-gt-2 stripped tokens that pass the capitalization, gazetteer and
length-gt-3 checks (retriever.py:86-88, 120-129). -/
lemma extractEntities_companies (q : String) :
    (extractEntities q).companies =
      (((pySplitWhitespace q).map (pyStrip stripPunct)).filter
          (fun w => w.length > 2)).filter (fun w =>
        pyFirstIsUpper w &&
        !(KNOWN_INVESTORS.contains (pyLower w)) &&
        !(KNOWN_SECTORS.contains (pyLower w)) &&
        !(KNOWN_LOCATIONS.contains (pyLower w)) &&
        decide (w.length > 3)) := rfl

/-- Projection of `extractEntities`: the INVESTOR type tag
(retriever.py:91-92, 102-105). -/
lemma extractEntities_investor_tag (q : String) :
    (extractEntities q).query_types.investor =
      (INVESTOR_KEYWORDS.any (fun kw => pyIn kw (pyLower q)) ||
        !(KNOWN_INVESTORS.filter (fun t => pyIn t (pyLower q))).isEmpty) := rfl

/-- Projection of `extractEntities`: the SECTOR type tag
(retriever.py:95-96, 107-110). -/
lemma extractEntities_sector_tag (q : String) :
    (extractEntities q).query_types.sector =
      (SECTOR_KEYWORDS.any (fun kw => pyIn kw (pyLower q)) ||
        !(KNOWN_SECTORS.filter (fun t => pyIn t (pyLower q))).isEmpty) := rfl

/-- Projection of `extractEntities`: the LOCATION type tag
(retriever.py:99-100, 112-115). -/
lemma extractEntities_location_tag (q : String) :
    (extractEntities q).query_types.location =
      (LOCATION_KEYWORDS.any (fun kw => pyIn kw (pyLower q)) ||
        !(KNOWN_LOCATIONS.filter (fun t => pyIn t (pyLower q))).isEmpty) := rfl

/-- Projection of `extractEntities`: the COMPANY type tag is set iff some
company candidate was appended (retriever.py:120-129). -/
lemma extractEntities_company_tag (q : String) :
    (extractEntities q).query_types.company = !(extractEntities q).companies.isEmpty := rfl

/-- C1: a query whose lower-cased form contains any comparison keyword as a
substring is classified `comparison` by `get_query_intent`, whatever other
flags or type tags extraction also set. -/
theorem spec_C1_comparison_priority (q : String)
    (h : ∃ kw ∈ COMPARISON_KEYWORDS, pyIn kw (pyLower q) = true) :
    getQueryIntent (extractEntities q) = "comparison" := by
  have hc : (extractEntities q).is_comparison = true := by
    rw [extractEntities_is_comparison]
    exact List.any_eq_true.mpr (by simpa using h)
  simp [getQueryIntent, hc]

/-- Witness for C1 at the concrete query `"Compare Flipkart and PhonePe"`. -/
theorem spec_C1_comparison_priority_witness :
    (∃ kw ∈ COMPARISON_KEYWORDS,
        pyIn kw (pyLower "Compare Flipkart and PhonePe") = true) ∧
      getQueryIntent (extractEntities "Compare Flipkart and PhonePe") = "comparison" :=
  ⟨⟨"compare", by decide, by decide⟩,
    spec_C1_comparison_priority "Compare Flipkart and PhonePe"
      ⟨"compare", by decide, by decide⟩⟩

/-- C7: `extract_entities` is a pure function of the query: calling the
method twice in a row on the same string yields identical
`ExtractedEntities`, and the call leaves the retriever object unchanged. -/
theorem spec_C7_extractor_idempotent (r : GraphRetriever) (q : String) :
    ((r.extract_entities q).2.extract_entities q).1 = (r.extract_entities q).1 ∧
      (r.extract_entities q).2 = r :=
  ⟨rfl, rfl⟩

/-- Witness instantiating C7 at a concrete query (C7 has no propositional
hypothesis; this records a concrete instance). -/
theorem spec_C7_extractor_idempotent_witness :
    ((GraphRetriever.mk.extract_entities "top fintech startups").2.extract_entities
        "top fintech startups").1 =
      (GraphRetriever.mk.extract_entities "top fintech startups").1 :=
  (spec_C7_extractor_idempotent GraphRetriever.mk "top fintech startups").1

/-- C4: the company-candidate list is exactly the stripped
whitespace-tokens of length > 3 whose first character is upper-case and
whose lower-cased form is in none of the three gazetteers, kept verbatim in
first-seen order; every candidate has length > 3 (so a 3-letter token such
as "and" is never a candidate). -/
theorem spec_C4_company_candidates (q : String) :
    (extractEntities q).companies =
      ((pySplitWhitespace q).map (pyStrip stripPunct)).filter (fun w =>
        decide (w.length > 3) && pyFirstIsUpper w &&
        !(KNOWN_INVESTORS.contains (pyLower w)) &&
        !(KNOWN_SECTORS.contains (pyLower w)) &&
        !(KNOWN_LOCATIONS.contains (pyLower w))) ∧
      (extractEntities q).companies.all (fun w => decide (w.length > 3)) = true := by
  have hmain : (extractEntities q).companies =
      ((pySplitWhitespace q).map (pyStrip stripPunct)).filter (fun w =>
        decide (w.length > 3) && pyFirstIsUpper w &&
        !(KNOWN_INVESTORS.contains (pyLower w)) &&
        !(KNOWN_SECTORS.contains (pyLower w)) &&
        !(KNOWN_LOCATIONS.contains (pyLower w))) := by
    rw [extractEntities_companies, List.filter_filter]
    apply List.filter_congr
    intro w _
    by_cases h3 : w.length > 3
    · have h2 : w.length > 2 := by omega
      have h3t : decide (w.length > 3) = true := decide_eq_true h3
      have h2t : decide (w.length > 2) = true := decide_eq_true h2
      simp only [h3t, h2t, Bool.and_true, Bool.true_and]
    · have h3f : decide (w.length > 3) = false := by simp [h3]
      simp [h3f]
  refine ⟨hmain, ?_⟩
  rw [hmain, List.all_eq_true]
  intro w hw
  have := (List.mem_filter.mp hw).2
  simp only [Bool.and_eq_true] at this
  exact this.1.1.1.1

/-- If an intent classifies as `company_info`, none of the
higher-priority conditions of the cascade held (retriever.py:143-158). -/
lemma getQueryIntent_company_info {e : ExtractedEntities}
    (h : getQueryIntent e = "company_info") :
    e.is_comparison = false ∧ e.is_aggregation = false ∧ e.is_top_query = false ∧
      e.query_types.investor = false ∧ e.query_types.sector = false ∧
      e.query_types.location = false := by
  unfold getQueryIntent at h
  split_ifs at h with h1 h2 h3 h4 h5 h6 h7
  all_goals first
    | (exact absurd h (by decide))
    | (exact ⟨by simpa using h1, by simpa using h2, by simpa using h3,
        by simpa using h4, by simpa using h5, by simpa using h6⟩)

/-- C9: whenever a gazetteer list is non-empty the matching type tag is
set (and likewise for company candidates); hence a `company_info`
classification forces an empty investor list, so the investor-portfolio
loop of `_build_company_context` contributes no blocks, no sources and no
count — the builder output is exactly the company-detail part. -/
theorem spec_C9_tag_invariant (q : String) :
    ((extractEntities q).investors ≠ [] → (extractEntities q).query_types.investor = true) ∧
    ((extractEntities q).sectors ≠ [] → (extractEntities q).query_types.sector = true) ∧
    ((extractEntities q).locations ≠ [] → (extractEntities q).query_types.location = true) ∧
    ((extractEntities q).companies ≠ [] → (extractEntities q).query_types.company = true) ∧
    (getQueryIntent (extractEntities q) = "company_info" →
      (extractEntities q).investors = [] ∧
      ∀ st : GraphQueries,
        investorPortfolioPairs st (extractEntities q).investors 5 = [] ∧
        buildCompanyContext st (extractEntities q) =
          ((((extractEntities q).companies.take 3).filterMap st.get_company_details).map
              formatCompanyDetails,
            (((extractEntities q).companies.take 3).filterMap st.get_company_details).map
              (fun d => "company:" ++ d.company),
            (((extractEntities q).companies.take 3).filterMap st.get_company_details).length)) := by
  refine ⟨?_, ?_, ?_, ?_, ?_⟩
  · intro h
    rw [extractEntities_investors] at h
    have h' : KNOWN_INVESTORS.filter (fun t => pyIn t (pyLower q)) ≠ [] :=
      fun hn => h (by rw [hn]; rfl)
    rw [extractEntities_investor_tag]
    simp [List.isEmpty_iff, h']
  · intro h
    rw [extractEntities_sectors] at h
    have h' : KNOWN_SECTORS.filter (fun t => pyIn t (pyLower q)) ≠ [] :=
      fun hn => h (by rw [hn]; rfl)
    rw [extractEntities_sector_tag]
    simp [List.isEmpty_iff, h']
  · intro h
    rw [extractEntities_locations] at h
    have h' : KNOWN_LOCATIONS.filter (fun t => pyIn t (pyLower q)) ≠ [] :=
      fun hn => h (by rw [hn]; rfl)
    rw [extractEntities_location_tag]
    simp [List.isEmpty_iff, h']
  · intro h
    rw [extractEntities_company_tag]
    simp [List.isEmpty_iff, h]
  · intro h
    obtain ⟨-, -, -, hinv, -, -⟩ := getQueryIntent_company_info h
    rw [extractEntities_investor_tag] at hinv
    have hfilter : (KNOWN_INVESTORS.filter (fun t => pyIn t (pyLower q))) = [] := by
      rcases Bool.or_eq_false_iff.mp hinv with ⟨-, hr⟩
      simpa [List.isEmpty_iff] using hr
    have hnil : (extractEntities q).investors = [] := by
      rw [extractEntities_investors, hfilter]; rfl
    refine ⟨hnil, fun st => ?_⟩
    have hpairs : investorPortfolioPairs st (extractEntities q).investors 5 = [] := by
      rw [hnil]; rfl
    exact ⟨hpairs, by simp [buildCompanyContext, hpairs]⟩

/-- Witness for C9 at the concrete query `"Tell me about Flipkart"`:
classified `company_info`, the investor list is empty and the builder
output over the empty store is the company-detail part alone. -/
theorem spec_C9_tag_invariant_witness :
    getQueryIntent (extractEntities "Tell me about Flipkart") = "company_info" ∧
      (extractEntities "Tell me about Flipkart").investors = [] ∧
      investorPortfolioPairs emptyStore (extractEntities "Tell me about Flipkart").investors 5
        = [] := by
  have h := (spec_C9_tag_invariant "Tell me about Flipkart").2.2.2.2 (by decide)
  exact ⟨by decide, h.1, (h.2 emptyStore).1⟩

/-- Counterexample to C3 as stated: for the query `"where"`, extraction
yields empty company/investor/sector/location lists and no
comparison/aggregation/top keyword fires, yet the LOCATION context keyword
`"where"` sets the LOCATION tag and the classified intent is
`location_info`, not `general`. -/
theorem spec_C3_counterexample :
    (extractEntities "where").companies = [] ∧
    (extractEntities "where").investors = [] ∧
    (extractEntities "where").sectors = [] ∧
    (extractEntities "where").locations = [] ∧
    (extractEntities "where").is_comparison = false ∧
    (extractEntities "where").is_aggregation = false ∧
    (extractEntities "where").is_top_query = false ∧
    getQueryIntent (extractEntities "where") = "location_info" ∧
    getQueryIntent (extractEntities "where") ≠ "general" := by
  decide

/-- The priority cascade yields `general` when every flag and tag is
unset (retriever.py:143-158). -/
lemma getQueryIntent_eq_general {e : ExtractedEntities}
    (h1 : e.is_comparison = false) (h2 : e.is_aggregation = false)
    (h3 : e.is_top_query = false) (h4 : e.query_types.investor = false)
    (h5 : e.query_types.sector = false) (h6 : e.query_types.location = false)
    (h7 : e.query_types.company = false) : getQueryIntent e = "general" := by
  simp [getQueryIntent, h1, h2, h3, h4, h5, h6, h7]

/-- C3 amended: the claim additionally needs the query to contain no
investor/sector/location context keyword (otherwise a type tag fires on
context words alone even with all extraction lists empty, as
`spec_C3_counterexample` shows).  Under that strengthening the intent is
`general` and the assembled context is the general-fallback block. -/
theorem spec_C3_general_amended (st : GraphQueries) (q : String)
    (hco : (extractEntities q).companies = [])
    (hin : (extractEntities q).investors = [])
    (hse : (extractEntities q).sectors = [])
    (hlo : (extractEntities q).locations = [])
    (hc : (extractEntities q).is_comparison = false)
    (ha : (extractEntities q).is_aggregation = false)
    (ht : (extractEntities q).is_top_query = false)
    (hikw : INVESTOR_KEYWORDS.any (fun kw => pyIn kw (pyLower q)) = false)
    (hskw : SECTOR_KEYWORDS.any (fun kw => pyIn kw (pyLower q)) = false)
    (hlkw : LOCATION_KEYWORDS.any (fun kw => pyIn kw (pyLower q)) = false) :
    getQueryIntent (extractEntities q) = "general" ∧
      (buildContext st q).context =
        String.intercalate "\n\n" (buildGeneralContext st).1 := by
  rw [extractEntities_investors] at hin
  rw [extractEntities_sectors] at hse
  rw [extractEntities_locations] at hlo
  have hinf : KNOWN_INVESTORS.filter (fun t => pyIn t (pyLower q)) = [] :=
    List.map_eq_nil_iff.mp hin
  have hsef : KNOWN_SECTORS.filter (fun t => pyIn t (pyLower q)) = [] :=
    List.map_eq_nil_iff.mp hse
  have hlof : KNOWN_LOCATIONS.filter (fun t => pyIn t (pyLower q)) = [] :=
    List.map_eq_nil_iff.mp hlo
  have h4 : (extractEntities q).query_types.investor = false := by
    rw [extractEntities_investor_tag, hinf, hikw]; rfl
  have h5 : (extractEntities q).query_types.sector = false := by
    rw [extractEntities_sector_tag, hsef, hskw]; rfl
  have h6 : (extractEntities q).query_types.location = false := by
    rw [extractEntities_location_tag, hlof, hlkw]; rfl
  have h7 : (extractEntities q).query_types.company = false := by
    rw [extractEntities_company_tag, hco]; rfl
  have hint := getQueryIntent_eq_general hc ha ht h4 h5 h6 h7
  refine ⟨hint, ?_⟩
  simp [buildContext, intentPlan, hint]

/-- Witness for C3 amended at the concrete query `"hello"` over the empty
store. -/
theorem spec_C3_general_amended_witness :
    ((extractEntities "hello").companies = [] ∧
      (extractEntities "hello").investors = [] ∧
      (extractEntities "hello").sectors = [] ∧
      (extractEntities "hello").locations = [] ∧
      (extractEntities "hello").is_comparison = false ∧
      (extractEntities "hello").is_aggregation = false ∧
      (extractEntities "hello").is_top_query = false) ∧
    getQueryIntent (extractEntities "hello") = "general" ∧
      (buildContext emptyStore "hello").context =
        String.intercalate "\n\n" (buildGeneralContext emptyStore).1 :=
  ⟨by decide,
    spec_C3_general_amended emptyStore "hello" (by decide) (by decide) (by decide)
      (by decide) (by decide) (by decide) (by decide) (by decide) (by decide) (by decide)⟩

/-- C2: if the intent-specific plan inside `build_context` produced zero
formatted blocks, the returned context string is byte-identical to the
blank-line join of the blocks the general plan alone produces. -/
theorem spec_C2_zero_block_fallback (st : GraphQueries) (q : String)
    (h : (intentPlan st (extractEntities q) (getQueryIntent (extractEntities q))).1 = []) :
    (buildContext st q).context =
      String.intercalate "\n\n" (buildGeneralContext st).1 := by
  simp only [buildContext]
  rw [h]
  simp

/-- Witness for C2 at the concrete query `"compare"` over the empty store:
the comparison plan retrieves nothing, so the fallback re-runs the general
plan. -/
theorem spec_C2_zero_block_fallback_witness :
    (intentPlan emptyStore (extractEntities "compare")
        (getQueryIntent (extractEntities "compare"))).1 = [] ∧
      (buildContext emptyStore "compare").context =
        String.intercalate "\n\n" (buildGeneralContext emptyStore).1 :=
  ⟨by decide, spec_C2_zero_block_fallback emptyStore "compare" (by decide)⟩

/-- Dropping the empty-result pairs does not change the total row count:
the sum of row counts over a `lookupPairs` loop equals the sum over all
looked-up names. -/
lemma sum_lengths_lookupPairs {ρ : Type} (f : String → List ρ) (names : List String) :
    ((lookupPairs f names).map (fun p => p.2.length)).sum =
      (names.map (fun n => (f n).length)).sum := by
  induction names with
  | nil => rfl
  | cons a t ih =>
    unfold lookupPairs at ih ⊢
    by_cases h : (f a).isEmpty
    · have hnil : f a = [] := List.isEmpty_iff.mp h
      simp [List.filter_cons, h, hnil, ih]
    · simp [List.filter_cons, h, ih]

/-- C5 amended: the exact counting rule the code implements.  `entities_found`
adds 1 per matched company-detail lookup and the row count of the portfolio,
sector-company, city-company, top-company, top-investor and sector-statistics
lists — but NOT the co-investor lists, NOT the sector/location statistics
blocks of the sector/location plans, NOT the location statistics of the
aggregation plan, and NOT the sector company-lists of the top-ranking plan,
all of which are formatted without being counted; the general plan counts
only the top-companies rows.  The graph-statistics record counts 1 in the
aggregation plan only. -/
theorem spec_C5_entities_found_amended (st : GraphQueries) (e : ExtractedEntities) :
    (buildCompanyContext st e).2.2 =
      ((e.companies.take 3).filterMap st.get_company_details).length +
        (e.investors.map (fun inv => (st.get_investor_portfolio inv 5).length)).sum ∧
    (buildInvestorContext st e).2.2 =
      ((e.investors.take 3).map (fun inv => (st.get_investor_portfolio inv 10).length)).sum +
        (if e.investors.isEmpty then (st.get_top_investors 10).length else 0) ∧
    (buildSectorContext st e).2.2 =
      ((e.sectors.take 3).map (fun s => (st.get_sector_companies s 10).length)).sum ∧
    (buildLocationContext st e).2.2 =
      ((e.locations.take 3).map (fun c => (st.get_city_companies c 10).length)).sum ∧
    (buildComparisonContext st e).2.2 =
      ((e.companies.take 5).filterMap st.get_company_details).length +
        ((e.sectors.take 3).map (fun s => (st.get_sector_companies s 5).length)).sum +
        ((e.locations.take 3).map (fun c => (st.get_city_companies c 5).length)).sum ∧
    (buildTopRankingContext st e).2.2 =
      (st.get_top_companies 10).length + (st.get_top_investors 10).length ∧
    (buildAggregationContext st e).2.2 =
      (if st.get_graph_stats.isSome then 1 else 0) + st.get_sector_stats.length ∧
    (buildGeneralContext st).2.2 = (st.get_top_companies 5).length := by
  refine ⟨?_, ?_, ?_, ?_, ?_, ?_, ?_, ?_⟩
  · simp [buildCompanyContext, investorPortfolioPairs, sum_lengths_lookupPairs]
  · by_cases hinv : e.investors.isEmpty
    · by_cases hti : (st.get_top_investors 10).isEmpty
      · have : (st.get_top_investors 10).length = 0 := by
          rw [List.isEmpty_iff.mp hti]; rfl
        simp [buildInvestorContext, investorPortfolioPairs,
          sum_lengths_lookupPairs, hinv, hti, this]
      · simp [buildInvestorContext, investorPortfolioPairs,
          sum_lengths_lookupPairs, hinv, hti]
    · simp [buildInvestorContext, investorPortfolioPairs,
        sum_lengths_lookupPairs, hinv]
  · by_cases hss : st.get_sector_stats.isEmpty <;>
      simp [buildSectorContext, sectorCompanyPairs, sum_lengths_lookupPairs, hss]
  · by_cases hls : st.get_location_stats.isEmpty <;>
      simp [buildLocationContext, cityCompanyPairs, sum_lengths_lookupPairs, hls]
  · simp [buildComparisonContext, sectorCompanyPairs, cityCompanyPairs,
      sum_lengths_lookupPairs]
  · by_cases htc : (st.get_top_companies 10).isEmpty
    · have h0 : (st.get_top_companies 10).length = 0 := by
        rw [List.isEmpty_iff.mp htc]; rfl
      by_cases hti : (st.get_top_investors 10).isEmpty
      · have h1 : (st.get_top_investors 10).length = 0 := by
          rw [List.isEmpty_iff.mp hti]; rfl
        simp [buildTopRankingContext, htc, hti, h0, h1]
      · simp [buildTopRankingContext, htc, hti, h0]
    · by_cases hti : (st.get_top_investors 10).isEmpty
      · have h1 : (st.get_top_investors 10).length = 0 := by
          rw [List.isEmpty_iff.mp hti]; rfl
        simp [buildTopRankingContext, htc, hti, h1]
      · simp [buildTopRankingContext, htc, hti]
  · cases hst : st.get_graph_stats <;>
      by_cases hss : st.get_sector_stats.isEmpty <;>
      by_cases hls : st.get_location_stats.isEmpty <;>
      first
        | (have h0 : st.get_sector_stats.length = 0 := by
            rw [List.isEmpty_iff.mp hss]; rfl
           simp [buildAggregationContext, hst, hss, hls, h0])
        | simp [buildAggregationContext, hst, hss, hls]
  · by_cases htc : (st.get_top_companies 5).isEmpty
    · have h0 : (st.get_top_companies 5).length = 0 := by
        rw [List.isEmpty_iff.mp htc]; rfl
      simp [buildGeneralContext, htc, h0]
    · simp [buildGeneralContext, htc]

/-- Modelled from the spec: the counting rule C5 asserts, instantiated at
the top-ranking plan — 1 per matched company-detail lookup (this plan
issues none) plus the row count of every list-shaped result the plan
retrieved: the top-company list, the top-investor list and each sector
company-list. -/
def claimedEntitiesFoundTopRanking (st : GraphQueries) (e : ExtractedEntities) : Nat :=
  (st.get_top_companies 10).length + (st.get_top_investors 10).length +
    ((e.sectors.take 2).map (fun s => (st.get_sector_companies s 5).length)).sum

/-- A store with one top company and one sector-company row: exposes that
the top-ranking plan retrieves and formats sector company-lists without
counting their rows. -/
def counterexampleStore : GraphQueries where
  get_company_details := fun _ => none
  get_investor_portfolio := fun _ _ => []
  get_co_investors := fun _ _ => []
  get_sector_companies := fun _ _ =>
    [{ company := "RowCo", valuation := "1.0", subsector := "X" }]
  get_city_companies := fun _ _ => []
  get_top_companies := fun _ =>
    [{ company := "TopCo", valuation := "10.0", sector := "Fintech" }]
  get_top_investors := fun _ => []
  get_sector_stats := []
  get_location_stats := []
  get_graph_stats := none

/-- Counterexample to C5 as stated: for the query `"top fintech"` (intent
`top_ranking`, one extracted sector) over `counterexampleStore`, the plan
retrieves a non-empty sector company-list but `entities_found` is 1 (the
single top-company row), not the 2 the claimed counting rule yields. -/
theorem spec_C5_counterexample :
    getQueryIntent (extractEntities "top fintech") = "top_ranking" ∧
    (buildTopRankingContext counterexampleStore (extractEntities "top fintech")).2.2 = 1 ∧
    claimedEntitiesFoundTopRanking counterexampleStore (extractEntities "top fintech") = 2 ∧
    (buildTopRankingContext counterexampleStore (extractEntities "top fintech")).2.2 ≠
      claimedEntitiesFoundTopRanking counterexampleStore (extractEntities "top fintech") := by
  decide

/-- A string with non-zero length is not the empty string. -/
lemma string_ne_empty_of_length_pos {s : String} (h : 0 < s.length) : s ≠ "" := by
  intro he
  rw [he] at h
  exact absurd h (by decide)

/-- The HTTP error message of the non-200 branch is never empty: it starts
with `"HTTP "`. -/
lemma http_error_message_ne_empty (s t : String) :
    ("HTTP " ++ s ++ ": " ++ t) ≠ "" := by
  apply string_ne_empty_of_length_pos
  rw [String.length_append, String.length_append, String.length_append]
  have h5 : ("HTTP " : String).length = 5 := by decide
  omega

/-- C6: `generate` is a total function of the request outcome (no exception
propagates past it), and on every failure outcome — connection refused,
timeout, non-200 status, malformed (unparseable) response body — the result
has `success = false`, empty content and a non-empty error description. -/
theorem spec_C6_generate_failure_uniform (model : String) (o : HttpOutcome)
    (h : isFailureOutcome o = true) :
    (OllamaClient.generate model o).success = false ∧
      (OllamaClient.generate model o).content = "" ∧
      (OllamaClient.generate model o).error.isSome = true ∧
      (OllamaClient.generate model o).error.getD "" ≠ "" := by
  cases o with
  | httpResponse s b t =>
    by_cases hs : s = 200
    · subst hs
      have hb : b = none := by
        cases b with
        | none => rfl
        | some x => simp [isFailureOutcome] at h
      subst hb
      refine ⟨rfl, rfl, rfl, ?_⟩
      show (some jsonDecodeErrorMessage).getD "" ≠ ""
      decide
    · have hgen : OllamaClient.generate model (.httpResponse s b t) =
          { content := "", model := model, total_duration_ms := 0, eval_count := 0,
            success := false, error := some ("HTTP " ++ toString s ++ ": " ++ t) } := by
        simp [OllamaClient.generate, hs]
      rw [hgen]
      refine ⟨rfl, rfl, rfl, ?_⟩
      show ("HTTP " ++ toString s ++ ": " ++ t) ≠ ""
      exact http_error_message_ne_empty (toString s) t
  | connectionError =>
    refine ⟨rfl, rfl, rfl, ?_⟩
    show (some "Cannot connect to Ollama. Make sure it\x27s running: `ollama serve`").getD ""
        ≠ ""
    decide
  | timeout =>
    refine ⟨rfl, rfl, rfl, ?_⟩
    show (some "Request timed out. The model may be loading or overloaded.").getD "" ≠ ""
    decide

/-- Witness for C6 at the connection-refused outcome. -/
theorem spec_C6_generate_failure_uniform_witness :
    isFailureOutcome HttpOutcome.connectionError = true ∧
      (OllamaClient.generate "llama3.1:8b" HttpOutcome.connectionError).success = false ∧
      (OllamaClient.generate "llama3.1:8b" HttpOutcome.connectionError).content = "" ∧
      (OllamaClient.generate "llama3.1:8b" HttpOutcome.connectionError).error.getD "" ≠ "" :=
  ⟨rfl,
    (spec_C6_generate_failure_uniform "llama3.1:8b" HttpOutcome.connectionError rfl).1,
    (spec_C6_generate_failure_uniform "llama3.1:8b" HttpOutcome.connectionError rfl).2.1,
    (spec_C6_generate_failure_uniform "llama3.1:8b" HttpOutcome.connectionError rfl).2.2.2⟩

/-- C10: a 200 response whose JSON body parses but lacks the `"response"`
key yields `success = true` with empty content and no error — success does
not imply non-empty generated content. -/
theorem spec_C10_success_without_response (model text : String) (body : OllamaJson)
    (h : body.response = none) :
    (OllamaClient.generate model (HttpOutcome.httpResponse 200 (some body) text)).success
        = true ∧
      (OllamaClient.generate model (HttpOutcome.httpResponse 200 (some body) text)).content
        = "" ∧
      (OllamaClient.generate model (HttpOutcome.httpResponse 200 (some body) text)).error
        = none := by
  refine ⟨rfl, ?_, rfl⟩
  show body.response.getD "" = ""
  rw [h]
  rfl

/-- Witness for C10 at a concrete body `{"model": "llama3"}` (valid JSON,
no `"response"` key). -/
theorem spec_C10_success_without_response_witness :
    ({ response := none, model := some "llama3", total_duration := none,
        eval_count := none } : OllamaJson).response = none ∧
      (OllamaClient.generate "m"
          (HttpOutcome.httpResponse 200
            (some { response := none, model := some "llama3", total_duration := none,
                    eval_count := none }) "raw")).success = true ∧
      (OllamaClient.generate "m"
          (HttpOutcome.httpResponse 200
            (some { response := none, model := some "llama3", total_duration := none,
                    eval_count := none }) "raw")).content = "" :=
  ⟨rfl,
    (spec_C10_success_without_response "m" "raw"
      { response := none, model := some "llama3", total_duration := none,
        eval_count := none } rfl).1,
    (spec_C10_success_without_response "m" "raw"
      { response := none, model := some "llama3", total_duration := none,
        eval_count := none } rfl).2.1⟩

/-- C8: the sector-company lookup never returns more than the requested
result cap, whatever the graph contains — `LIMIT $limit` truncates after
matching and sorting; in particular a cap of 5 yields at most 5 records. -/
theorem spec_C8_sector_cap (g : Neo4jGraph) (sector_name : String) (limit : Nat) :
    (g.get_sector_companies sector_name limit).length ≤ limit := by
  unfold Neo4jGraph.get_sector_companies
  exact List.length_take_le _ _
